import Mathlib

/-!
Shallow embedding of the StockTwits trading-behavior analysis engine
(`analyze_traders.py` and `strategy_analyzer.py`), together with theorems
settling the specification claims about it.

Modelling conventions:
* A Python message dict is modelled as the structure `Msg`; `msg.get(k, d)`
  on absent keys is modelled by the corresponding default field values.
* Python floats are modelled as exact rationals; `round(x, n)` (banker's
  rounding) is modelled by `roundHalfEven`.
* `re.search(pattern, text, re.IGNORECASE)` is an external library call; it
  is abstracted as a boolean match function `matchFn : String → String → Bool`
  passed as a parameter to every definition that uses it.  Plain Python
  substring tests (`kw in text`) are modelled exactly by `containsSubstr`.
-/

namespace StockTwits

/-- A StockTwits message record, as consumed by the analyzers.  Fields match
the keys read via `msg.get(...)` in the source; absent keys default to
`none` / `""` / `false` / `[]` / `0` exactly as `dict.get` defaults do. -/
structure Msg where
  username : Option String := none
  body : String := ""
  is_comment : Bool := false
  symbols : List String := []
  followers : Nat := 0
deriving DecidableEq

/-- Lower-casing of a Python string (`str.lower`), character by character. -/
def lowerStr (s : String) : String := String.mk (s.data.map Char.toLower)

/-- Whether the first character list is a prefix of the second. -/
def isPrefixList : List Char → List Char → Bool
  | [], _ => true
  | _ :: _, [] => false
  | a :: as, b :: bs => a == b && isPrefixList as bs

/-- Whether the first character list occurs contiguously inside the second. -/
def isInfixList (needle : List Char) : List Char → Bool
  | [] => isPrefixList needle []
  | b :: bs => isPrefixList needle (b :: bs) || isInfixList needle bs

/-- Python substring membership `needle in hay`. -/
def containsSubstr (needle hay : String) : Bool :=
  isInfixList needle.toList hay.toList

/-- Banker's rounding (`round` in Python) of an exact rational to an integer:
round half to even. -/
def roundHalfEven (x : ℚ) : ℤ :=
  let f := ⌊x⌋
  let r := x - (f : ℚ)
  if r < 1/2 then f
  else if 1/2 < r then f + 1
  else if f % 2 = 0 then f else f + 1

/-- Python `round(x, 1)` on an exact rational. -/
def round1 (x : ℚ) : ℚ := (roundHalfEven (10 * x) : ℚ) / 10

/-- Python `round(x, 2)` on an exact rational. -/
def round2 (x : ℚ) : ℚ := (roundHalfEven (100 * x) : ℚ) / 100

/-! Keyword lexicons of `TradingBehaviorAnalyzer` (plain substrings). -/

/-- `TradingBehaviorAnalyzer.DAY_TRADING_KEYWORDS`. -/
def DAY_TRADING_KEYWORDS : List String :=
  ["scalp", "scalping", "day trade", "intraday", "momentum",
   "breakout", "squeeze", "gamma", "short squeeze",
   "0dte", "same day", "quick trade", "fast money"]

/-- `TradingBehaviorAnalyzer.OPTIONS_KEYWORDS`. -/
def OPTIONS_KEYWORDS : List String :=
  ["call", "calls", "put", "puts", "option", "options",
   "strike", "expiry", "expiration", "theta", "delta", "vega",
   "iv", "implied volatility", "premium", "otm", "itm", "atm"]

/-- `TradingBehaviorAnalyzer.DERIVATIVES_KEYWORDS`. -/
def DERIVATIVES_KEYWORDS : List String :=
  ["future", "futures", "contract", "leverage", "leveraged",
   "margin", "3x", "2x", "inverse", "short etf"]

/-- `TradingBehaviorAnalyzer.URGENT_KEYWORDS`. -/
def URGENT_KEYWORDS : List String :=
  ["now", "right now", "asap", "quick", "fast", "immediate",
   "today", "alert", "breaking", "just", "buying now", "selling now"]

/-- `TradingBehaviorAnalyzer.TECHNICAL_KEYWORDS`. -/
def TECHNICAL_KEYWORDS : List String :=
  ["rsi", "macd", "ema", "sma", "vwap", "fibonacci", "support",
   "resistance", "channel", "breakout", "breakdown", "pattern",
   "chart", "technical", "indicator"]

/-- `TradingBehaviorAnalyzer.LEVERAGED_INSTRUMENTS`. -/
def LEVERAGED_INSTRUMENTS : List String :=
  ["TQQQ", "SQQQ", "UVXY", "SPXU", "SPXL", "TNA", "TZA",
   "UPRO", "SDOW", "UDOW", "LABU", "LABD", "NAIL", "NUGT"]

/-- The keyword-hit count `sum(1 for kw in kws if kw in text)` used throughout
`analyze_traders.py`: each keyword contributes at most one, however often it
occurs in `text`. -/
def keywordCount (kws : List String) (text : String) : Nat :=
  (kws.filter (fun kw => containsSubstr kw text)).length

/-- The lower-cased space-joined concatenation
`' '.join(m.get('body', '').lower() for m in user_msgs)`. -/
def totalText (user_msgs : List Msg) : String :=
  String.intercalate " " (user_msgs.map (fun m => lowerStr m.body))

/-- The 8-signal vector of `analyze_fast_twitch_score` (the `signals` dict). -/
structure Signals where
  posting_frequency : ℚ
  urgent_language : ℚ
  options_focus : ℚ
  derivatives_focus : ℚ
  day_trading_language : ℚ
  technical_analysis : ℚ
  leveraged_instruments : ℚ
  engagement_speed : ℚ
deriving DecidableEq

/-- The 8 signal computations of
`TradingBehaviorAnalyzer.analyze_fast_twitch_score` (lines 119-173), for a
non-empty `user_msgs`. -/
def fastTwitchSignals (user_msgs : List Msg) : Signals :=
  let text := totalText user_msgs
  { posting_frequency :=
      if 10 ≤ user_msgs.length then 10
      else if 5 ≤ user_msgs.length then 7
      else if 3 ≤ user_msgs.length then 5
      else if 2 ≤ user_msgs.length then 3
      else 0
    urgent_language := min ((keywordCount URGENT_KEYWORDS text : ℚ) * 2) 10
    options_focus := min ((keywordCount OPTIONS_KEYWORDS text : ℚ) * (3/2)) 10
    derivatives_focus := min ((keywordCount DERIVATIVES_KEYWORDS text : ℚ) * 2) 10
    day_trading_language := min ((keywordCount DAY_TRADING_KEYWORDS text : ℚ) * 2) 10
    technical_analysis := min ((keywordCount TECHNICAL_KEYWORDS text : ℚ) * 1) 10
    leveraged_instruments :=
      min (((user_msgs.flatMap Msg.symbols).filter
              (fun s => LEVERAGED_INSTRUMENTS.contains s)).length * (3 : ℚ)) 10
    engagement_speed :=
      min (((user_msgs.filter Msg.is_comment).length : ℚ) / user_msgs.length * 15) 10 }

/-- `sum(signals.values())`. -/
def sumSignals (s : Signals) : ℚ :=
  s.posting_frequency + s.urgent_language + s.options_focus + s.derivatives_focus +
    s.day_trading_language + s.technical_analysis + s.leveraged_instruments +
    s.engagement_speed

/-- `normalized_score = min((total_score / max_score) * 100, 100)` with
`max_score = 80`. -/
def normalizedScore (user_msgs : List Msg) : ℚ :=
  min (sumSignals (fastTwitchSignals user_msgs) / 80 * 100) 100

/-- `TradingBehaviorAnalyzer._classify_trader`. -/
def classify_trader (score : ℚ) : String :=
  if 70 ≤ score then "HYPER_ACTIVE_TRADER"
  else if 50 ≤ score then "ACTIVE_TRADER"
  else if 30 ≤ score then "MODERATE_TRADER"
  else "PASSIVE_INVESTOR"

/-- The full result dict returned by `analyze_fast_twitch_score` on a
non-empty message list (lines 180-187). -/
structure FTFull where
  username : String
  score : ℚ
  signals : Signals
  total_posts : Nat
  followers : Nat
  classification : String
deriving DecidableEq

/-- The two possible shapes of the `analyze_fast_twitch_score` result: the
degenerate dict `\x7b'score': 0, 'signals': \x7b\x7d\x7d` for a user with no
messages (line 117), or the full record. -/
inductive FTResult where
  | degenerate (score : ℚ) (signals : List (String × ℚ))
  | full (f : FTFull)
deriving DecidableEq

/-- The `score` entry of either result shape. -/
def FTResult.scoreVal : FTResult → ℚ
  | .degenerate s _ => s
  | .full f => f.score

/-- The full-result branch of `analyze_fast_twitch_score`. -/
def fastTwitchFull (username : String) (user_msgs : List Msg) : FTFull :=
  { username := username
    score := round1 (normalizedScore user_msgs)
    signals := fastTwitchSignals user_msgs
    total_posts := user_msgs.length
    followers := (user_msgs.head?.map Msg.followers).getD 0
    classification := classify_trader (normalizedScore user_msgs) }

/-- `TradingBehaviorAnalyzer.analyze_fast_twitch_score`.  The per-user message
index `self.user_activity` is modelled as an association list; `.get(username, [])`
is `(act.lookup username).getD []`. -/
def analyze_fast_twitch_score (act : List (String × List Msg)) (username : String) :
    FTResult :=
  let user_msgs := (act.lookup username).getD []
  if user_msgs = [] then .degenerate 0 []
  else .full (fastTwitchFull username user_msgs)

/-! Regex lexicons of `StrategyAnalyzer`.  Each entry is the raw pattern
string handed to `re.search`; matching itself is abstracted as `matchFn`. -/

/-- `StrategyAnalyzer.ULTRA_SHORT_KEYWORDS`. -/
def ULTRA_SHORT_KEYWORDS : List String :=
  ["\\b0dte\\b", "\\bsame day\\b", "\\bintraday\\b", "\\bscalp(ing)?\\b",
   "\\bday trad(e|ing)\\b", "\\bright now\\b", "\\bquick flip\\b",
   "\\bin and out\\b", "\\b(1|5|15)m chart\\b", "\\bvwap\\b", "\\blevel 2\\b"]

/-- `StrategyAnalyzer.SHORT_TERM_KEYWORDS`. -/
def SHORT_TERM_KEYWORDS : List String :=
  ["\\bswing trad(e|ing)\\b", "\\bfew days\\b", "\\bshort term\\b",
   "\\bweekly\\b", "\\bthis week\\b", "\\b(1|4)h chart\\b",
   "\\bholding through (week|earnings)\\b", "\\b3-day play\\b"]

/-- `StrategyAnalyzer.MEDIUM_TERM_KEYWORDS`. -/
def MEDIUM_TERM_KEYWORDS : List String :=
  ["\\bposition trad(e|ing)\\b", "\\bmedium term\\b", "\\bfew weeks\\b",
   "\\bcouple months\\b", "\\bmomentum play\\b", "\\bbuilding position\\b",
   "\\baccumulat(e|ing)\\b", "\\bmonthly expiration\\b", "\\bLEAPS?\\b"]

/-- `StrategyAnalyzer.LONG_TERM_KEYWORDS`. -/
def LONG_TERM_KEYWORDS : List String :=
  ["\\blong term\\b", "\\bholding\\b", "\\binvestor\\b", "\\bbuy and hold\\b",
   "\\bretirement\\b", "\\byears?\\b", "\\bforever hold\\b", "\\bcore holding\\b",
   "\\bnever selling\\b", "\\bthinking \\d+ years\\b", "\\bdividend\\b"]

/-- `StrategyAnalyzer.SCALPER_KEYWORDS`. -/
def SCALPER_KEYWORDS : List String :=
  ["\\bscalp(ing)?\\b", "\\bquick flip\\b", "\\bin and out\\b", "\\bticks?\\b",
   "\\blevel 2\\b", "\\btape reading\\b", "\\bseconds to minutes\\b"]

/-- `StrategyAnalyzer.DAY_TRADER_KEYWORDS`. -/
def DAY_TRADER_KEYWORDS : List String :=
  ["\\bday trad(e|ing)\\b", "\\b0dte\\b", "\\bintraday\\b",
   "\\bend of day\\b", "\\bno overnight risk\\b", "\\bclose(s|d|ing) all positions\\b"]

/-- `StrategyAnalyzer.SWING_TRADER_KEYWORDS`. -/
def SWING_TRADER_KEYWORDS : List String :=
  ["\\bswing trad(e|ing)\\b", "\\bswing\\b", "\\bfew days\\b",
   "\\bweekly setup\\b", "\\bshort term play\\b", "\\b(2|3|5)-day\\b"]

/-- `StrategyAnalyzer.MOMENTUM_KEYWORDS`. -/
def MOMENTUM_KEYWORDS : List String :=
  ["\\bmomentum\\b", "\\bbreakout\\b", "\\btrending\\b", "\\briding the wave\\b",
   "\\bcatching the move\\b", "\\bvolume surge\\b", "\\bstrong move\\b"]

/-- `StrategyAnalyzer.VALUE_KEYWORDS`. -/
def VALUE_KEYWORDS : List String :=
  ["\\bundervalued\\b", "\\bcheap\\b", "\\bPE ratio\\b", "\\bvalue\\b",
   "\\bfundamentals\\b", "\\bintrinsic value\\b", "\\bmargin of safety\\b",
   "\\bbuying the dip\\b", "\\bdiscount\\b"]

/-- `StrategyAnalyzer.GROWTH_KEYWORDS`. -/
def GROWTH_KEYWORDS : List String :=
  ["\\bgrowth stock\\b", "\\brevenue growth\\b", "\\bdisruptive\\b",
   "\\binnovation\\b", "\\bfuture potential\\b", "\\bhigh growth\\b",
   "\\bexpansion\\b", "\\bscaling\\b"]

/-- `StrategyAnalyzer.INCOME_KEYWORDS`. -/
def INCOME_KEYWORDS : List String :=
  ["\\bdividend(s)?\\b", "\\bincome\\b", "\\bcovered call(s)?\\b",
   "\\bselling premium\\b", "\\btheta gang\\b", "\\byield\\b",
   "\\bmonthly income\\b", "\\bcash flow\\b"]

/-- `StrategyAnalyzer.CONTRARIAN_KEYWORDS`. -/
def CONTRARIAN_KEYWORDS : List String :=
  ["\\bcontrarian\\b", "\\bbuying the dip\\b", "\\beveryone wrong\\b",
   "\\bfade the move\\b", "\\boversold\\b", "\\boverbought\\b",
   "\\bsentiment extreme\\b", "\\bagainst the crowd\\b"]

/-- `StrategyAnalyzer.HIGH_CONVICTION`. -/
def HIGH_CONVICTION : List String :=
  ["\\ball in\\b", "\\bbiggest position\\b", "\\bno doubt\\b",
   "\\bguaranteed\\b", "\\b100%\\b", "\\badding more\\b",
   "\\bvery confident\\b", "\\bheavy position\\b", "\\bmax conviction\\b"]

/-- `StrategyAnalyzer.MEDIUM_CONVICTION`. -/
def MEDIUM_CONVICTION : List String :=
  ["\\bgood setup\\b", "\\bthink it goes\\b", "\\bshould work\\b",
   "\\bstarter position\\b", "\\bmoderate size\\b", "\\bwill add if\\b"]

/-- `StrategyAnalyzer.LOW_CONVICTION`. -/
def LOW_CONVICTION : List String :=
  ["\\blottery ticket\\b", "\\bsmall spec\\b", "\\bmight work\\b",
   "\\bwe\\\x27ll see\\b", "\\brisky\\b", "\\bjust ?\\$?\\d+\\b", "\\bYOLO\\b"]

/-- `StrategyAnalyzer.AGGRESSIVE_SIGNALS`. -/
def AGGRESSIVE_SIGNALS : List String :=
  ["\\b0dte\\b", "\\bTQQQ|SQQQ\\b", "\\bleverage\\b", "\\bmargin\\b",
   "\\bYOLO\\b", "\\ball in\\b", "\\b3x ETF\\b", "\\bhigh risk\\b"]

/-- `StrategyAnalyzer.CONSERVATIVE_SIGNALS`. -/
def CONSERVATIVE_SIGNALS : List String :=
  ["\\bdividend\\b", "\\bblue chip\\b", "\\bsafe\\b", "\\bstable\\b",
   "\\bcapital preservation\\b", "\\blow risk\\b", "\\bdefensive\\b"]

/-- `StrategyAnalyzer.count_pattern_matches`: count how many patterns match
and return them as evidence, in pattern-list order.  `matchFn` abstracts
`re.search(pattern, text, re.IGNORECASE)`. -/
def count_pattern_matches (matchFn : String → String → Bool)
    (text : String) (patterns : List String) : Nat × List String :=
  let ms := patterns.filter (fun p => matchFn p text)
  (ms.length, ms)

/-- The space-joined concatenation `' '.join([p.get('body', '') for p in posts])`
used by every `StrategyAnalyzer` classifier (not lower-cased; the source
relies on `re.IGNORECASE` instead). -/
def combinedText (posts : List Msg) : String :=
  String.intercalate " " (posts.map Msg.body)

/-- Result dict of `analyze_timeframe`.  `all_scores` keeps the dict in its
insertion order. -/
structure TimeframeResult where
  primary : String
  confidence : Nat
  evidence : List String
  all_scores : List (String × Nat)
deriving DecidableEq

/-- Python's `max(scores, key=scores.get)` over a dict in insertion order:
iterate, keeping the current entry unless a later one is strictly greater;
returns the key. -/
def pyMaxKey : List (String × Nat) → String
  | [] => ""
  | x :: xs => (xs.foldl (fun a b => if a.2 < b.2 then b else a) x).1

/-- `max(scores.values())` over an association list (0 for the empty list,
which never arises in the source). -/
def maxVal (l : List (String × Nat)) : Nat :=
  l.foldr (fun x a => max x.2 a) 0

/-- Match count and evidence of one pattern family over a post list's
combined text. -/
def familyMatches (matchFn : String → String → Bool) (patterns : List String)
    (posts : List Msg) : Nat × List String :=
  count_pattern_matches matchFn (combinedText posts) patterns

/-- The `scores` dict of `analyze_timeframe`, in insertion order. -/
def timeframeScores (matchFn : String → String → Bool) (posts : List Msg) :
    List (String × Nat) :=
  [("ultra_short_term", (familyMatches matchFn ULTRA_SHORT_KEYWORDS posts).1),
   ("short_term", (familyMatches matchFn SHORT_TERM_KEYWORDS posts).1),
   ("medium_term", (familyMatches matchFn MEDIUM_TERM_KEYWORDS posts).1),
   ("long_term", (familyMatches matchFn LONG_TERM_KEYWORDS posts).1)]

/-- `StrategyAnalyzer.analyze_timeframe`. -/
def analyze_timeframe (matchFn : String → String → Bool) (posts : List Msg) :
    TimeframeResult :=
  let u := familyMatches matchFn ULTRA_SHORT_KEYWORDS posts
  let s := familyMatches matchFn SHORT_TERM_KEYWORDS posts
  let m := familyMatches matchFn MEDIUM_TERM_KEYWORDS posts
  let l := familyMatches matchFn LONG_TERM_KEYWORDS posts
  let scores := timeframeScores matchFn posts
  if maxVal scores = 0 then
    { primary := "unknown", confidence := 0, evidence := [], all_scores := scores }
  else
    let primary := pyMaxKey scores
    let primary_count := ((scores.lookup primary).getD 0)
    let confidence := min 100 (primary_count * 25 + (posts.length / 5) * 5)
    let evidence :=
      if primary = "ultra_short_term" then u.2
      else if primary = "short_term" then s.2
      else if primary = "medium_term" then m.2
      else l.2
    { primary := primary, confidence := confidence,
      evidence := evidence.take 5, all_scores := scores }

/-- Result dict of `analyze_strategy`. -/
structure StrategyResult where
  primary : String
  confidence : Nat
  evidence : List String
  secondary : Option String
  secondary_confidence : Nat
  all_scores : List (String × Nat)
deriving DecidableEq

/-- Stable insertion of an entry into a descending-sorted list: the entry is
placed before the first element whose count is not larger.  Folding the
original list right to left with this reproduces Python's stable
`sorted(items, key=count, reverse=True)`. -/
def insertDesc (x : String × Nat) : List (String × Nat) → List (String × Nat)
  | [] => [x]
  | y :: ys => if y.2 ≤ x.2 then x :: y :: ys else y :: insertDesc x ys

/-- Python's stable `sorted(scores.items(), key=lambda x: x[1], reverse=True)`:
sort by count descending, ties keeping the original (declaration) order. -/
def sortDesc : List (String × Nat) → List (String × Nat)
  | [] => []
  | x :: xs => insertDesc x (sortDesc xs)

/-- The `scores` dict of `analyze_strategy`, in insertion order. -/
def strategyScores (matchFn : String → String → Bool) (posts : List Msg) :
    List (String × Nat) :=
  [("scalper", (familyMatches matchFn SCALPER_KEYWORDS posts).1),
   ("day_trader", (familyMatches matchFn DAY_TRADER_KEYWORDS posts).1),
   ("swing_trader", (familyMatches matchFn SWING_TRADER_KEYWORDS posts).1),
   ("momentum_trader", (familyMatches matchFn MOMENTUM_KEYWORDS posts).1),
   ("value_investor", (familyMatches matchFn VALUE_KEYWORDS posts).1),
   ("growth_investor", (familyMatches matchFn GROWTH_KEYWORDS posts).1),
   ("income_trader", (familyMatches matchFn INCOME_KEYWORDS posts).1),
   ("contrarian", (familyMatches matchFn CONTRARIAN_KEYWORDS posts).1)]

/-- `StrategyAnalyzer.analyze_strategy`. -/
def analyze_strategy (matchFn : String → String → Bool) (posts : List Msg) :
    StrategyResult :=
  let sc := familyMatches matchFn SCALPER_KEYWORDS posts
  let dt := familyMatches matchFn DAY_TRADER_KEYWORDS posts
  let sw := familyMatches matchFn SWING_TRADER_KEYWORDS posts
  let mo := familyMatches matchFn MOMENTUM_KEYWORDS posts
  let va := familyMatches matchFn VALUE_KEYWORDS posts
  let gr := familyMatches matchFn GROWTH_KEYWORDS posts
  let inc := familyMatches matchFn INCOME_KEYWORDS posts
  let co := familyMatches matchFn CONTRARIAN_KEYWORDS posts
  let scores := strategyScores matchFn posts
  if maxVal scores = 0 then
    { primary := "unknown", confidence := 0, evidence := [],
      secondary := none, secondary_confidence := 0, all_scores := scores }
  else
    let sorted := sortDesc scores
    let primary := sorted.headI.1
    let primary_count := sorted.headI.2
    let secondary : Option String :=
      match sorted with
      | _ :: y :: _ => if 0 < y.2 then some y.1 else none
      | _ => none
    let secondary_count :=
      match sorted with
      | _ :: y :: _ => if 0 < y.2 then y.2 else 0
      | _ => 0
    let primary_confidence := min 100 (primary_count * 30 + (posts.length / 5) * 5)
    let secondary_confidence :=
      if secondary.isSome then min 80 (secondary_count * 30) else 0
    let evidence :=
      if primary = "scalper" then sc.2
      else if primary = "day_trader" then dt.2
      else if primary = "swing_trader" then sw.2
      else if primary = "momentum_trader" then mo.2
      else if primary = "value_investor" then va.2
      else if primary = "growth_investor" then gr.2
      else if primary = "income_trader" then inc.2
      else co.2
    { primary := primary, confidence := primary_confidence,
      evidence := evidence.take 5, secondary := secondary,
      secondary_confidence := secondary_confidence, all_scores := scores }

/-- Result dict of `analyze_conviction`. -/
structure ConvictionResult where
  level : String
  score : Nat
  evidence : List String
deriving DecidableEq

/-- `StrategyAnalyzer.analyze_conviction`.  `//` is integer (floor) division. -/
def analyze_conviction (matchFn : String → String → Bool) (posts : List Msg) :
    ConvictionResult :=
  let hi := familyMatches matchFn HIGH_CONVICTION posts
  let me := familyMatches matchFn MEDIUM_CONVICTION posts
  let lo := familyMatches matchFn LOW_CONVICTION posts
  let score := (hi.1 * 100 + me.1 * 60 + lo.1 * 20) / max 1 posts.length
  let levelEvidence :=
    if 80 ≤ score then ("high", hi.2)
    else if 40 ≤ score then ("medium", me.2)
    else ("low", lo.2)
  { level := levelEvidence.1, score := min 100 score,
    evidence := levelEvidence.2.take 3 }

/-- Result dict of `analyze_risk_profile`. -/
structure RiskResult where
  category : String
  score : Nat
  evidence : List String
deriving DecidableEq

/-- `StrategyAnalyzer.analyze_risk_profile`.  The source computes
`int((aggressive_count / (aggressive_count + conservative_count)) * 100)`;
for every realizable pair of counts (at most 8 aggressive and 7 conservative
patterns) the float computation equals exact truncation, modelled by natural
floor division `100 * a / (a + c)`. -/
def analyze_risk_profile (matchFn : String → String → Bool) (posts : List Msg) :
    RiskResult :=
  let ag := familyMatches matchFn AGGRESSIVE_SIGNALS posts
  let co := familyMatches matchFn CONSERVATIVE_SIGNALS posts
  if ag.1 + co.1 = 0 then
    { category := "moderate", score := 50, evidence := [] }
  else
    let score := 100 * ag.1 / (ag.1 + co.1)
    let categoryEvidence :=
      if 70 ≤ score then ("aggressive", ag.2)
      else if 30 ≤ score then ("moderate", ag.2 ++ co.2)
      else ("conservative", co.2)
    { category := categoryEvidence.1, score := score,
      evidence := categoryEvidence.2.take 5 }

/-- The classifier outputs that `calculate_product_fit_score` reads from the
profile dict.  `instruments_primary` models
`profile.get('instruments', \x7b\x7d).get('primary')`. -/
structure FitInput where
  timeframe_primary : String
  strategy_primary : String
  conviction_level : String
  risk_category : String
  instruments_primary : Option String
deriving DecidableEq

/-- The `timeframe_scores` dict lookup `timeframe_scores.get(timeframe, 0)`
of `calculate_product_fit_score`. -/
def timeframe_scores_get (t : String) : Nat :=
  if t = "ultra_short_term" then 30
  else if t = "short_term" then 25
  else if t = "medium_term" then 15
  else if t = "long_term" then 5
  else 0

/-- The `strategy_scores` dict lookup `strategy_scores.get(strategy, 0)` of
`calculate_product_fit_score`. -/
def strategy_scores_get (s : String) : Nat :=
  if s = "day_trader" then 25
  else if s = "scalper" then 25
  else if s = "swing_trader" then 20
  else if s = "momentum_trader" then 20
  else if s = "contrarian" then 15
  else if s = "growth_investor" then 10
  else if s = "value_investor" then 8
  else if s = "income_trader" then 5
  else 0

/-- The `conviction_scores` dict lookup `conviction_scores.get(level, 0)` of
`calculate_product_fit_score`. -/
def conviction_scores_get (c : String) : Nat :=
  if c = "high" then 15
  else if c = "medium" then 10
  else if c = "low" then 5
  else 0

/-- The risk-profile contribution (`+20` aggressive, `+10` moderate) of
`calculate_product_fit_score`. -/
def risk_fit_bonus (r : String) : Nat :=
  if r = "aggressive" then 20
  else if r = "moderate" then 10
  else 0

/-- The options-instrument bonus (`+10`) of `calculate_product_fit_score`. -/
def instrument_fit_bonus (i : Option String) : Nat :=
  if i = some "options" then 10 else 0

/-- `StrategyAnalyzer.calculate_product_fit_score`, accumulating score and
feature list exactly as the source does; `list(set(features))` is modelled by
`List.dedup` (the source fixes no order for it). -/
def calculate_product_fit_score (p : FitInput) : Nat × String × List String :=
  let tb := timeframe_scores_get p.timeframe_primary
  let feats1 : List String :=
    if p.timeframe_primary = "ultra_short_term" then
      ["Real-time quotes", "Quick execution", "0DTE options"]
    else []
  let sb := strategy_scores_get p.strategy_primary
  let feats2 := feats1 ++
    (if p.strategy_primary = "day_trader" ∨ p.strategy_primary = "scalper" then
      ["Level 2 data", "Mobile alerts", "Paper trading"]
    else [])
  let cb := conviction_scores_get p.conviction_level
  let rb := risk_fit_bonus p.risk_category
  let feats3 := feats2 ++
    (if p.risk_category = "aggressive" then
      ["Options chains", "Margin trading", "Advanced orders"]
    else [])
  let ib := instrument_fit_bonus p.instruments_primary
  let feats4 := feats3 ++
    (if p.instruments_primary = some "options" then
      ["Options strategies builder"]
    else [])
  let score := tb + sb + cb + rb + ib
  let likelihood :=
    if 80 ≤ score then "very_high"
    else if 60 ≤ score then "high"
    else if 40 ≤ score then "medium"
    else "low"
  (min 100 score, likelihood, feats4.dedup)

/-- The per-user profile dict built by `analyze_user`. -/
structure UserProfile where
  username : String
  total_posts : Nat
  timeframe : TimeframeResult
  strategy : StrategyResult
  conviction : ConvictionResult
  risk_profile : RiskResult
  product_fit_score : Nat
  in_app_trading_likelihood : String
  recommended_features : List String
deriving DecidableEq

/-- `StrategyAnalyzer.analyze_user`: returns `none` ("insufficient data") for
fewer than 3 posts, otherwise the full profile.  The profile handed to
`calculate_product_fit_score` has no `instruments` key, so
`instruments_primary` is `none` on this path. -/
def analyze_user (matchFn : String → String → Bool)
    (act : List (String × List Msg)) (username : String) : Option UserProfile :=
  let posts := (act.lookup username).getD []
  if posts.length < 3 then none
  else
    let tf := analyze_timeframe matchFn posts
    let st := analyze_strategy matchFn posts
    let cv := analyze_conviction matchFn posts
    let rk := analyze_risk_profile matchFn posts
    let fit := calculate_product_fit_score
      ⟨tf.primary, st.primary, cv.level, rk.category, none⟩
    some { username := username, total_posts := posts.length,
           timeframe := tf, strategy := st, conviction := cv, risk_profile := rk,
           product_fit_score := fit.1, in_app_trading_likelihood := fit.2.1,
           recommended_features := fit.2.2 }

/-- The `instrument_signals` dict of `analyze_trading_instruments`. -/
structure InstrumentSignals where
  stocks_only : Nat
  options_trader : Nat
  futures_trader : Nat
  leveraged_etf_trader : Nat
  crypto_trader : Nat
deriving DecidableEq

/-- Futures keyword list inlined in `analyze_trading_instruments`. -/
def FUTURES_WORDS : List String := ["future", "futures", "/es", "/nq", "/ym"]

/-- Crypto keyword list inlined in `analyze_trading_instruments`. -/
def CRYPTO_WORDS : List String := ["btc", "eth", "crypto", "bitcoin", "ethereum"]

/-- One loop iteration of `analyze_trading_instruments`: the four keyword
counters are bumped first, then `stocks_only` is bumped only if the message
has symbols and no options/futures/leveraged count has accumulated in the
running tally (including this message's own bumps). -/
def instrumentStep (st : InstrumentSignals) (msg : Msg) : InstrumentSignals :=
  let bl := lowerStr msg.body
  let st1 := if OPTIONS_KEYWORDS.any (fun kw => containsSubstr kw bl) then
      { st with options_trader := st.options_trader + 1 } else st
  let st2 := if FUTURES_WORDS.any (fun kw => containsSubstr kw bl) then
      { st1 with futures_trader := st1.futures_trader + 1 } else st1
  let st3 := if msg.symbols.any (fun s => LEVERAGED_INSTRUMENTS.contains s) then
      { st2 with leveraged_etf_trader := st2.leveraged_etf_trader + 1 } else st2
  let st4 := if CRYPTO_WORDS.any (fun kw => containsSubstr kw bl) then
      { st3 with crypto_trader := st3.crypto_trader + 1 } else st3
  if msg.symbols ≠ [] ∧ st4.options_trader = 0 ∧ st4.futures_trader = 0 ∧
      st4.leveraged_etf_trader = 0 then
    { st4 with stocks_only := st4.stocks_only + 1 }
  else st4

/-- `TradingBehaviorAnalyzer.analyze_trading_instruments` over a message list. -/
def analyze_trading_instruments (msgs : List Msg) : InstrumentSignals :=
  msgs.foldl instrumentStep ⟨0, 0, 0, 0, 0⟩

/-- The per-message urgency test of `analyze_trading_urgency_patterns`:
`any(kw in body_lower for kw in URGENT_KEYWORDS)`. -/
def is_urgent (msg : Msg) : Bool :=
  URGENT_KEYWORDS.any (fun kw => containsSubstr kw (lowerStr msg.body))

/-- The `urgency_rate` field of `analyze_trading_urgency_patterns`:
`round(len(urgent_posts) / len(messages) * 100, 2)`, 0 for no messages. -/
def urgency_rate (msgs : List Msg) : ℚ :=
  if msgs = [] then 0
  else round2 (((msgs.filter is_urgent).length : ℚ) / msgs.length * 100)

/-- The urgency tier printed by `generate_report` (lines 397-406): HIGH above
20, MODERATE above 10, LOW otherwise. -/
def urgencyTier (rate : ℚ) : String :=
  if 20 < rate then "HIGH"
  else if 10 < rate then "MODERATE"
  else "LOW"

/-! Specification-side definitions used only to state properties. -/

/-- The first entry of an association list whose count attains the maximum. -/
def firstMax (l : List (String × Nat)) : Option (String × Nat) :=
  l.find? (fun y => decide (maxVal l ≤ y.2))

/-- The label of the first entry attaining the maximum count (the
declaration-order tie-break winner). -/
def firstMaxLabel (l : List (String × Nat)) : String :=
  ((firstMax l).map Prod.fst).getD ""

/-- Every signal of the vector lies in the interval [0, 10]. -/
def SignalsBounded (s : Signals) : Prop :=
  (0 ≤ s.posting_frequency ∧ s.posting_frequency ≤ 10) ∧
  (0 ≤ s.urgent_language ∧ s.urgent_language ≤ 10) ∧
  (0 ≤ s.options_focus ∧ s.options_focus ≤ 10) ∧
  (0 ≤ s.derivatives_focus ∧ s.derivatives_focus ≤ 10) ∧
  (0 ≤ s.day_trading_language ∧ s.day_trading_language ≤ 10) ∧
  (0 ≤ s.technical_analysis ∧ s.technical_analysis ≤ 10) ∧
  (0 ≤ s.leveraged_instruments ∧ s.leveraged_instruments ≤ 10) ∧
  (0 ≤ s.engagement_speed ∧ s.engagement_speed ≤ 10)

/-- Validity of a produced `UserProfile`: the post count is the user's, and
every score and confidence respects its documented bound. -/
def ValidProfile (posts : List Msg) (p : UserProfile) : Prop :=
  p.total_posts = posts.length ∧
  p.timeframe.confidence ≤ 100 ∧
  p.strategy.confidence ≤ 100 ∧
  p.strategy.secondary_confidence ≤ 100 ∧
  p.conviction.score ≤ 100 ∧
  p.risk_profile.score ≤ 100 ∧
  p.product_fit_score ≤ 100 ∧
  p.in_app_trading_likelihood ∈ ["very_high", "high", "medium", "low"]

/-! Concrete inputs used in witnesses and counterexamples. -/

/-- A message whose body contains only the word "right". -/
def msgRight : Msg := { username := some "u", body := "right" }

/-- A message whose body contains only the word "now". -/
def msgNow : Msg := { username := some "u", body := "now" }

/-- A message whose body contains only the word "fast". -/
def msgFast : Msg := { username := some "u", body := "fast" }

/-- A message with no urgency keyword in its body. -/
def msgHello : Msg := { username := some "b", body := "hello" }

/-- A message with an urgent body. -/
def msgBuyNow : Msg := { username := some "a", body := "buy now" }

/-- A 4-message dataset of which exactly one message is urgent. -/
def urgencyDataset : List Msg := [msgBuyNow, msgHello, msgHello, msgHello]

/-- A message with options language and no symbols. -/
def msgOptionsTalk : Msg := { username := some "u", body := "calls" }

/-- A message with a plain stock symbol and an empty body. -/
def msgPlainSymbol : Msg := { username := some "u", symbols := ["AAPL"] }

/-- A message with an empty body and no symbols. -/
def blankMsg : Msg := {}

/-- A post body that makes exactly two aggressive risk patterns and one
conservative risk pattern match under the literal-substring matcher. -/
def riskHeavyMsg : Msg := { body := "\\bleverage\\b \\bmargin\\b \\bsafe\\b" }

/-- A post body that makes exactly three aggressive and three conservative
risk patterns match under the literal-substring matcher. -/
def riskMixedMsg : Msg :=
  { body := "\\bleverage\\b \\bmargin\\b \\bYOLO\\b \\bsafe\\b \\bstable\\b \\bdefensive\\b" }

/-- A one-post user index. -/
def soloActivity : List (String × List Msg) := [("solo", [msgHello])]

/-- A three-post user index. -/
def trioActivity : List (String × List Msg) :=
  [("trio", [msgBuyNow, msgHello, msgOptionsTalk])]

/-- A post body that, under the literal-substring matcher, gives the
timeframe families a 1-1 tie between ultra-short and short term and the
strategy families a 1-1 tie between swing and momentum. -/
def tieMsg : Msg := { body := "\\bvwap\\b \\bweekly\\b \\bswing\\b \\bmomentum\\b" }

/-- The phrase "now" repeated 100 times, space-separated. -/
def nowHundred : String := String.intercalate " " (List.replicate 100 "now")

/-- The raw pattern text of the YOLO aggressive signal, as a body. -/
def yoloOnce : String := "\\bYOLO\\b"

/-- That same phrase repeated 100 times, space-separated. -/
def yoloHundred : String := String.intercalate " " (List.replicate 100 yoloOnce)

/-! Helper lemmas. -/

theorem roundHalfEven_nonneg {x : ℚ} (hx : 0 ≤ x) : 0 ≤ roundHalfEven x := by
  have h0 : 0 ≤ ⌊x⌋ := Int.floor_nonneg.mpr hx
  unfold roundHalfEven
  dsimp only
  split_ifs <;> omega

theorem roundHalfEven_le {x : ℚ} {n : ℤ} (hx : x ≤ (n : ℚ)) :
    roundHalfEven x ≤ n := by
  have h0 : ⌊x⌋ ≤ n := by
    have := Int.floor_le_floor hx
    rwa [Int.floor_intCast] at this
  have hfx : (⌊x⌋ : ℚ) ≤ x := Int.floor_le x
  unfold roundHalfEven
  dsimp only
  split_ifs with h1 h2 h3
  · exact h0
  · have hq : (⌊x⌋ : ℚ) < (n : ℚ) := by linarith
    have : ⌊x⌋ < n := by exact_mod_cast hq
    omega
  · exact h0
  · push_neg at h1
    have hq : (⌊x⌋ : ℚ) < (n : ℚ) := by linarith
    have : ⌊x⌋ < n := by exact_mod_cast hq
    omega

theorem round1_mem {x : ℚ} (h0 : 0 ≤ x) (h1 : x ≤ 100) :
    0 ≤ round1 x ∧ round1 x ≤ 100 := by
  have ha : 0 ≤ roundHalfEven (10 * x) := roundHalfEven_nonneg (by positivity)
  have hb : roundHalfEven (10 * x) ≤ (1000 : ℤ) := by
    apply roundHalfEven_le
    push_cast
    linarith
  unfold round1
  constructor
  · apply div_nonneg _ (by norm_num)
    exact_mod_cast ha
  · rw [div_le_iff₀ (by norm_num : (0:ℚ) < 10)]
    have : ((roundHalfEven (10 * x) : ℤ) : ℚ) ≤ 1000 := by exact_mod_cast hb
    linarith

theorem fastTwitchSignals_bounded (msgs : List Msg) :
    SignalsBounded (fastTwitchSignals msgs) := by
  unfold SignalsBounded fastTwitchSignals
  dsimp only
  refine ⟨?_, ?_, ?_, ?_, ?_, ?_, ?_, ?_⟩
  · split_ifs <;> norm_num
  · exact ⟨le_min (by positivity) (by norm_num), min_le_right _ _⟩
  · exact ⟨le_min (by positivity) (by norm_num), min_le_right _ _⟩
  · exact ⟨le_min (by positivity) (by norm_num), min_le_right _ _⟩
  · exact ⟨le_min (by positivity) (by norm_num), min_le_right _ _⟩
  · exact ⟨le_min (by positivity) (by norm_num), min_le_right _ _⟩
  · exact ⟨le_min (by positivity) (by norm_num), min_le_right _ _⟩
  · refine ⟨le_min ?_ (by norm_num), min_le_right _ _⟩
    positivity

theorem normalizedScore_mem (msgs : List Msg) :
    0 ≤ normalizedScore msgs ∧ normalizedScore msgs ≤ 100 := by
  have hb := fastTwitchSignals_bounded msgs
  unfold SignalsBounded at hb
  obtain ⟨h1, h2, h3, h4, h5, h6, h7, h8⟩ := hb
  have hs : 0 ≤ sumSignals (fastTwitchSignals msgs) := by
    unfold sumSignals
    linarith [h1.1, h2.1, h3.1, h4.1, h5.1, h6.1, h7.1, h8.1]
  unfold normalizedScore
  exact ⟨le_min (by positivity) (by norm_num), min_le_right _ _⟩

theorem fastTwitchFull_score_mem (username : String) (msgs : List Msg) :
    0 ≤ (fastTwitchFull username msgs).score ∧
      (fastTwitchFull username msgs).score ≤ 100 := by
  have h := normalizedScore_mem msgs
  exact round1_mem h.1 h.2

theorem scoreVal_mem (act : List (String × List Msg)) (username : String) :
    0 ≤ (analyze_fast_twitch_score act username).scoreVal ∧
      (analyze_fast_twitch_score act username).scoreVal ≤ 100 := by
  unfold analyze_fast_twitch_score
  dsimp only
  split_ifs
  · exact ⟨le_refl 0, by norm_num [FTResult.scoreVal]⟩
  · exact fastTwitchFull_score_mem _ _

theorem analyze_timeframe_confidence_le (matchFn : String → String → Bool)
    (posts : List Msg) : (analyze_timeframe matchFn posts).confidence ≤ 100 := by
  unfold analyze_timeframe
  dsimp only
  split
  · exact Nat.zero_le 100
  · exact min_le_left _ _

theorem analyze_strategy_confidence_le (matchFn : String → String → Bool)
    (posts : List Msg) : (analyze_strategy matchFn posts).confidence ≤ 100 := by
  unfold analyze_strategy
  dsimp only
  split
  · exact Nat.zero_le 100
  · exact min_le_left _ _

theorem analyze_strategy_secondary_confidence_le
    (matchFn : String → String → Bool) (posts : List Msg) :
    (analyze_strategy matchFn posts).secondary_confidence ≤ 100 := by
  unfold analyze_strategy
  dsimp only
  split
  · exact Nat.zero_le 100
  · dsimp only
    split_ifs <;>
      first
        | exact Nat.zero_le 100
        | exact le_trans (min_le_left _ _) (by norm_num)

theorem analyze_conviction_score_le (matchFn : String → String → Bool)
    (posts : List Msg) : (analyze_conviction matchFn posts).score ≤ 100 := by
  unfold analyze_conviction
  exact min_le_left _ _

theorem analyze_risk_profile_score_le (matchFn : String → String → Bool)
    (posts : List Msg) : (analyze_risk_profile matchFn posts).score ≤ 100 := by
  unfold analyze_risk_profile
  dsimp only
  split
  · norm_num
  · rename_i h
    dsimp only
    set a := (familyMatches matchFn AGGRESSIVE_SIGNALS posts).1 with ha
    set c := (familyMatches matchFn CONSERVATIVE_SIGNALS posts).1 with hc
    have hpos : 0 < a + c := Nat.pos_of_ne_zero h
    calc 100 * a / (a + c) ≤ 100 * (a + c) / (a + c) :=
          Nat.div_le_div_right (Nat.mul_le_mul_left 100 (Nat.le_add_right a c))
      _ = 100 := Nat.mul_div_cancel 100 hpos

theorem timeframe_scores_get_le (t : String) : timeframe_scores_get t ≤ 30 := by
  unfold timeframe_scores_get
  split_ifs <;> norm_num

theorem strategy_scores_get_le (s : String) : strategy_scores_get s ≤ 25 := by
  unfold strategy_scores_get
  split_ifs <;> norm_num

theorem conviction_scores_get_le (c : String) : conviction_scores_get c ≤ 15 := by
  unfold conviction_scores_get
  split_ifs <;> norm_num

theorem risk_fit_bonus_le (r : String) : risk_fit_bonus r ≤ 20 := by
  unfold risk_fit_bonus
  split_ifs <;> norm_num

theorem instrument_fit_bonus_le (i : Option String) : instrument_fit_bonus i ≤ 10 := by
  unfold instrument_fit_bonus
  split_ifs <;> norm_num

/-! Claim theorems. -/

/-- C1: for every input Post collection and every user, each of the 8
fast-twitch signal values lies in [0,10], the fast-twitch score lies in
[0,100] (in both the degenerate and the full result shape), the timeframe
primary confidence, strategy primary and secondary confidences all lie in
[0,100], and the conviction and risk scores lie in [0,100].  Natural-number
quantities are nonnegative by type, so only upper bounds are stated for
them. -/
theorem C1_boundedness (matchFn : String → String → Bool)
    (act : List (String × List Msg)) (username : String)
    (msgs posts : List Msg) :
    SignalsBounded (fastTwitchSignals msgs) ∧
    (0 ≤ (fastTwitchFull username msgs).score ∧
      (fastTwitchFull username msgs).score ≤ 100) ∧
    (0 ≤ (analyze_fast_twitch_score act username).scoreVal ∧
      (analyze_fast_twitch_score act username).scoreVal ≤ 100) ∧
    (analyze_timeframe matchFn posts).confidence ≤ 100 ∧
    (analyze_strategy matchFn posts).confidence ≤ 100 ∧
    (analyze_strategy matchFn posts).secondary_confidence ≤ 100 ∧
    (analyze_conviction matchFn posts).score ≤ 100 ∧
    (analyze_risk_profile matchFn posts).score ≤ 100 :=
  ⟨fastTwitchSignals_bounded msgs, fastTwitchFull_score_mem username msgs,
   scoreVal_mem act username,
   analyze_timeframe_confidence_le matchFn posts,
   analyze_strategy_confidence_le matchFn posts,
   analyze_strategy_secondary_confidence_le matchFn posts,
   analyze_conviction_score_le matchFn posts,
   analyze_risk_profile_score_le matchFn posts⟩

/-- C8: the product-fit score is the sum of the fixed timeframe, strategy,
conviction, risk and instrument bonuses capped at 100; the likelihood tier
thresholds the returned score at 80/60/40; and the recommended-features list
has no duplicates. -/
theorem C8_product_fit (p : FitInput) :
    (calculate_product_fit_score p).1 =
      min 100 (timeframe_scores_get p.timeframe_primary +
        strategy_scores_get p.strategy_primary +
        conviction_scores_get p.conviction_level +
        risk_fit_bonus p.risk_category +
        instrument_fit_bonus p.instruments_primary) ∧
    (calculate_product_fit_score p).2.1 =
      (if 80 ≤ (calculate_product_fit_score p).1 then "very_high"
       else if 60 ≤ (calculate_product_fit_score p).1 then "high"
       else if 40 ≤ (calculate_product_fit_score p).1 then "medium"
       else "low") ∧
    (calculate_product_fit_score p).2.2.Nodup := by
  have h1 := timeframe_scores_get_le p.timeframe_primary
  have h2 := strategy_scores_get_le p.strategy_primary
  have h3 := conviction_scores_get_le p.conviction_level
  have h4 := risk_fit_bonus_le p.risk_category
  have h5 := instrument_fit_bonus_le p.instruments_primary
  have hsum : timeframe_scores_get p.timeframe_primary +
      strategy_scores_get p.strategy_primary +
      conviction_scores_get p.conviction_level +
      risk_fit_bonus p.risk_category +
      instrument_fit_bonus p.instruments_primary ≤ 100 := by omega
  refine ⟨rfl, ?_, ?_⟩
  · unfold calculate_product_fit_score
    dsimp only
    rw [Nat.min_eq_right hsum]
  · unfold calculate_product_fit_score
    dsimp only
    exact List.nodup_dedup _

/-- C9: in the instrument-preference analysis, `stocks_only` increments only
when no options/futures/leveraged count has accumulated in the running tally,
which makes the result depend on message order: swapping a symbols-only
message past an options-language message changes the `stocks_only` count. -/
theorem C9_order_dependence :
    [msgOptionsTalk, msgPlainSymbol].Perm [msgPlainSymbol, msgOptionsTalk] ∧
    (analyze_trading_instruments [msgOptionsTalk, msgPlainSymbol]).stocks_only = 0 ∧
    (analyze_trading_instruments [msgPlainSymbol, msgOptionsTalk]).stocks_only = 1 := by
  refine ⟨List.Perm.swap _ _ _, ?_, ?_⟩ <;> decide

/-- C10: a username with no recorded messages yields the degenerate record
with score 0 and an empty signals dict — the constructor without the
username, total_posts, followers and classification fields — and never an
error; any user with at least one message yields the full record. -/
theorem C10_degenerate_result (act : List (String × List Msg)) (username : String) :
    (((act.lookup username).getD []) = [] →
      analyze_fast_twitch_score act username = .degenerate 0 []) ∧
    (((act.lookup username).getD []) ≠ [] →
      ∃ f, analyze_fast_twitch_score act username = .full f) := by
  constructor
  · intro h
    unfold analyze_fast_twitch_score
    dsimp only
    rw [if_pos h]
  · intro h
    unfold analyze_fast_twitch_score
    dsimp only
    rw [if_neg h]
    exact ⟨_, rfl⟩

/-- Witness for C10: the empty index with an unknown username produces
exactly the degenerate record. -/
theorem C10_witness :
    ((([] : List (String × List Msg)).lookup "ghost").getD [] = ([] : List Msg)) ∧
    analyze_fast_twitch_score [] "ghost" = .degenerate 0 [] :=
  ⟨rfl, (C10_degenerate_result [] "ghost").1 rfl⟩

/-- C5: pattern-match counting is distinct-pattern counting: the count only
depends on which patterns match, never on how often, for both the plain
substring counter of `analyze_traders.py` and `count_pattern_matches` of
`strategy_analyzer.py`; and each count is bounded by the pattern-group
size, so each pattern contributes at most 1. -/
theorem C5_distinct_pattern_cap (kws pats : List String) (t t' u u' : String)
    (matchFn : String → String → Bool)
    (h1 : ∀ kw ∈ kws, containsSubstr kw t = containsSubstr kw t')
    (h2 : ∀ p ∈ pats, matchFn p u = matchFn p u') :
    keywordCount kws t = keywordCount kws t' ∧
    keywordCount kws t ≤ kws.length ∧
    (count_pattern_matches matchFn u pats).1 =
      (count_pattern_matches matchFn u' pats).1 ∧
    (count_pattern_matches matchFn u pats).1 ≤ pats.length := by
  refine ⟨?_, ?_, ?_, ?_⟩
  · unfold keywordCount
    exact congrArg List.length (List.filter_congr h1)
  · exact List.length_filter_le _ _
  · unfold count_pattern_matches
    exact congrArg List.length (List.filter_congr h2)
  · exact List.length_filter_le _ _

set_option maxRecDepth 100000 in
/-- Witness for C5: the phrase "now" (resp. the raw YOLO pattern text)
repeated 100 times produces the same match counts as a single occurrence. -/
theorem C5_witness :
    ((∀ kw ∈ URGENT_KEYWORDS, containsSubstr kw "now" = containsSubstr kw nowHundred) ∧
     (∀ p ∈ AGGRESSIVE_SIGNALS, containsSubstr p yoloOnce = containsSubstr p yoloHundred)) ∧
    keywordCount URGENT_KEYWORDS "now" = keywordCount URGENT_KEYWORDS nowHundred ∧
    (count_pattern_matches containsSubstr yoloOnce AGGRESSIVE_SIGNALS).1 =
      (count_pattern_matches containsSubstr yoloHundred AGGRESSIVE_SIGNALS).1 := by
  have h1 : ∀ kw ∈ URGENT_KEYWORDS, containsSubstr kw "now" = containsSubstr kw nowHundred := by
    decide
  have h2 : ∀ p ∈ AGGRESSIVE_SIGNALS,
      containsSubstr p yoloOnce = containsSubstr p yoloHundred := by
    decide
  have h := C5_distinct_pattern_cap URGENT_KEYWORDS AGGRESSIVE_SIGNALS
    "now" nowHundred yoloOnce yoloHundred containsSubstr h1 h2
  exact ⟨⟨h1, h2⟩, h.1, h.2.2.1⟩

theorem roundHalfEven_intCast (n : ℤ) : roundHalfEven ((n : ℤ) : ℚ) = n := by
  unfold roundHalfEven
  rw [Int.floor_intCast]
  norm_num

theorem round2_25 : round2 (25 : ℚ) = 25 := by
  unfold round2
  have h : (100 : ℚ) * 25 = ((2500 : ℤ) : ℚ) := by norm_num
  rw [h, roundHalfEven_intCast]
  norm_num

theorem urgencyTier_25 : urgencyTier (25 : ℚ) = "HIGH" := by
  unfold urgencyTier
  norm_num

/-- C7 counterexample: on a dataset where exactly 25% of the posts contain an
urgency keyword, the urgency rate is 25.0 but the reported tier is "HIGH"
(the >20 band), not "MODERATE" as the claim states. -/
theorem C7_counterexample :
    urgency_rate urgencyDataset = 25 ∧
    urgencyTier (urgency_rate urgencyDataset) = "HIGH" ∧
    urgencyTier (urgency_rate urgencyDataset) ≠ "MODERATE" := by
  have hflt : (urgencyDataset.filter is_urgent).length = 1 := by decide
  have hlen : urgencyDataset.length = 4 := by decide
  have hrate : urgency_rate urgencyDataset = 25 := by
    unfold urgency_rate
    rw [if_neg (by decide : ¬urgencyDataset = []), hflt, hlen]
    have hq : ((1 : Nat) : ℚ) / ((4 : Nat) : ℚ) * 100 = 25 := by norm_num
    rw [hq, round2_25]
  rw [hrate, urgencyTier_25]
  exact ⟨rfl, rfl, by decide⟩

/-- C7 amended: a dataset in which exactly a quarter of the messages are
urgent has urgency rate exactly 25 and is reported as "HIGH" urgency (the
high band being >20%; the moderate band >10% and ≤20% does not contain 25). -/
theorem C7_amended (msgs : List Msg) (n : Nat) (hn : n ≠ 0)
    (hlen : msgs.length = 4 * n)
    (hurg : (msgs.filter is_urgent).length = n) :
    urgency_rate msgs = 25 ∧ urgencyTier (urgency_rate msgs) = "HIGH" := by
  have hne : msgs ≠ [] := by
    intro h
    rw [h] at hlen
    simp at hlen
    omega
  have hrate : urgency_rate msgs = 25 := by
    unfold urgency_rate
    rw [if_neg hne, hurg, hlen]
    have hn' : (n : ℚ) ≠ 0 := Nat.cast_ne_zero.mpr hn
    have hq : ((n : Nat) : ℚ) / (((4 * n : Nat) : Nat) : ℚ) * 100 = 25 := by
      push_cast
      field_simp
      ring
    rw [hq, round2_25]
  rw [hrate, urgencyTier_25]
  exact ⟨rfl, rfl⟩

/-- Witness for C7 amended: the concrete 4-message dataset with one urgent
message. -/
theorem C7_amended_witness :
    ((1 : Nat) ≠ 0 ∧ urgencyDataset.length = 4 * 1 ∧
      (urgencyDataset.filter is_urgent).length = 1) ∧
    (urgency_rate urgencyDataset = 25 ∧
      urgencyTier (urgency_rate urgencyDataset) = "HIGH") :=
  ⟨⟨by decide, by decide, by decide⟩,
   C7_amended urgencyDataset 1 (by decide) (by decide) (by decide)⟩

/-- C2 counterexample: with the literal-substring matcher, `riskHeavyMsg`
makes exactly 2 aggressive and 1 conservative patterns match, and the code's
score is 66 while rounding (2/3)·100 gives 67; `riskMixedMsg` puts the
classifier in the moderate case where the reported evidence is a strict
truncation of the union of the two evidence lists. -/
theorem C2_counterexample :
    (familyMatches containsSubstr AGGRESSIVE_SIGNALS [riskHeavyMsg]).1 = 2 ∧
    (familyMatches containsSubstr CONSERVATIVE_SIGNALS [riskHeavyMsg]).1 = 1 ∧
    (analyze_risk_profile containsSubstr [riskHeavyMsg]).score = 66 ∧
    roundHalfEven ((2 : ℚ) / ((2 : ℚ) + 1) * 100) = 67 ∧
    (analyze_risk_profile containsSubstr [riskMixedMsg]).category = "moderate" ∧
    (analyze_risk_profile containsSubstr [riskMixedMsg]).evidence ≠
      (familyMatches containsSubstr AGGRESSIVE_SIGNALS [riskMixedMsg]).2 ++
        (familyMatches containsSubstr CONSERVATIVE_SIGNALS [riskMixedMsg]).2 := by
  have hfloor : ⌊(2 : ℚ) / ((2 : ℚ) + 1) * 100⌋ = 66 := by
    rw [Int.floor_eq_iff]
    norm_num
  have hround : roundHalfEven ((2 : ℚ) / ((2 : ℚ) + 1) * 100) = 67 := by
    unfold roundHalfEven
    rw [hfloor]
    rw [if_neg (by norm_num), if_pos (by norm_num)]
    norm_num
  exact ⟨by decide, by decide, by decide, hround, by decide, by decide⟩

/-- C2 amended: the risk classifier returns ("moderate", 50, []) when no
aggressive or conservative pattern matches; otherwise its score is the
integer truncation `100 * aggressive / (aggressive + conservative)` (floor,
not round), the category thresholds the score at 70 and 30, and in the
moderate case the evidence is the union of both evidence lists truncated to
the first 5 entries. -/
theorem C2_amended (matchFn : String → String → Bool) (posts : List Msg) :
    ((familyMatches matchFn AGGRESSIVE_SIGNALS posts).1 +
        (familyMatches matchFn CONSERVATIVE_SIGNALS posts).1 = 0 →
      analyze_risk_profile matchFn posts =
        { category := "moderate", score := 50, evidence := [] }) ∧
    ((familyMatches matchFn AGGRESSIVE_SIGNALS posts).1 +
        (familyMatches matchFn CONSERVATIVE_SIGNALS posts).1 ≠ 0 →
      (analyze_risk_profile matchFn posts).score =
        100 * (familyMatches matchFn AGGRESSIVE_SIGNALS posts).1 /
          ((familyMatches matchFn AGGRESSIVE_SIGNALS posts).1 +
            (familyMatches matchFn CONSERVATIVE_SIGNALS posts).1) ∧
      (analyze_risk_profile matchFn posts).category =
        (if 70 ≤ (analyze_risk_profile matchFn posts).score then "aggressive"
         else if 30 ≤ (analyze_risk_profile matchFn posts).score then "moderate"
         else "conservative") ∧
      ((analyze_risk_profile matchFn posts).category = "moderate" →
        (analyze_risk_profile matchFn posts).evidence =
          ((familyMatches matchFn AGGRESSIVE_SIGNALS posts).2 ++
            (familyMatches matchFn CONSERVATIVE_SIGNALS posts).2).take 5)) := by
  constructor
  · intro h
    unfold analyze_risk_profile
    dsimp only
    rw [if_pos h]
  · intro h
    unfold analyze_risk_profile
    dsimp only
    rw [if_neg h]
    dsimp only
    split_ifs with h70 h30
    · refine ⟨rfl, rfl, ?_⟩
      intro hmod
      dsimp only at hmod
      exact absurd hmod (by decide)
    · exact ⟨rfl, rfl, fun _ => rfl⟩
    · refine ⟨rfl, rfl, ?_⟩
      intro hmod
      dsimp only at hmod
      exact absurd hmod (by decide)

/-- Witness for C2 amended: the two-aggressive/one-conservative post exercises
the nonzero branch. -/
theorem C2_amended_witness :
    ((familyMatches containsSubstr AGGRESSIVE_SIGNALS [riskHeavyMsg]).1 +
        (familyMatches containsSubstr CONSERVATIVE_SIGNALS [riskHeavyMsg]).1 ≠ 0) ∧
    ((analyze_risk_profile containsSubstr [riskHeavyMsg]).score =
        100 * (familyMatches containsSubstr AGGRESSIVE_SIGNALS [riskHeavyMsg]).1 /
          ((familyMatches containsSubstr AGGRESSIVE_SIGNALS [riskHeavyMsg]).1 +
            (familyMatches containsSubstr CONSERVATIVE_SIGNALS [riskHeavyMsg]).1) ∧
      (analyze_risk_profile containsSubstr [riskHeavyMsg]).category =
        (if 70 ≤ (analyze_risk_profile containsSubstr [riskHeavyMsg]).score then "aggressive"
         else if 30 ≤ (analyze_risk_profile containsSubstr [riskHeavyMsg]).score then "moderate"
         else "conservative") ∧
      ((analyze_risk_profile containsSubstr [riskHeavyMsg]).category = "moderate" →
        (analyze_risk_profile containsSubstr [riskHeavyMsg]).evidence =
          ((familyMatches containsSubstr AGGRESSIVE_SIGNALS [riskHeavyMsg]).2 ++
            (familyMatches containsSubstr CONSERVATIVE_SIGNALS [riskHeavyMsg]).2).take 5)) :=
  ⟨by decide, (C2_amended containsSubstr [riskHeavyMsg]).2 (by decide)⟩

theorem calculate_product_fit_score_le (p : FitInput) :
    (calculate_product_fit_score p).1 ≤ 100 := by
  unfold calculate_product_fit_score
  exact min_le_left _ _

theorem calculate_product_fit_likelihood_mem (p : FitInput) :
    (calculate_product_fit_score p).2.1 ∈ ["very_high", "high", "medium", "low"] := by
  unfold calculate_product_fit_score
  dsimp only
  split_ifs <;> simp

/-- C4 counterexample: a grouped user with one (mapping-shaped) post gets no
UserProfile at all — `analyze_user` returns `None` below the 3-post
threshold — refuting the claim that any grouped user with at least one post
produces a valid UserProfile. -/
theorem C4_counterexample :
    ((soloActivity.lookup "solo").getD []).length = 1 ∧
    analyze_user containsSubstr soloActivity "solo" = none := by
  decide

/-- C4 amended: the scoring path is total (no exception): for a grouped user
with fewer than 3 posts `analyze_user` returns `None` (documented
"insufficient data"), and for 3 or more posts it returns a valid
UserProfile. -/
theorem C4_amended (matchFn : String → String → Bool)
    (act : List (String × List Msg)) (username : String) :
    (((act.lookup username).getD []).length < 3 →
      analyze_user matchFn act username = none) ∧
    (3 ≤ ((act.lookup username).getD []).length →
      ∃ p, analyze_user matchFn act username = some p ∧
        ValidProfile ((act.lookup username).getD []) p) := by
  constructor
  · intro h
    unfold analyze_user
    dsimp only
    rw [if_pos h]
  · intro h
    unfold analyze_user
    dsimp only
    rw [if_neg (Nat.not_lt.mpr h)]
    refine ⟨_, rfl, ?_⟩
    unfold ValidProfile
    refine ⟨rfl, ?_, ?_, ?_, ?_, ?_, ?_, ?_⟩
    · exact analyze_timeframe_confidence_le matchFn _
    · exact analyze_strategy_confidence_le matchFn _
    · exact analyze_strategy_secondary_confidence_le matchFn _
    · exact analyze_conviction_score_le matchFn _
    · exact analyze_risk_profile_score_le matchFn _
    · exact calculate_product_fit_score_le _
    · exact calculate_product_fit_likelihood_mem _

/-- Witness for C4 amended: a three-post user gets a valid profile. -/
theorem C4_amended_witness :
    3 ≤ ((trioActivity.lookup "trio").getD []).length ∧
    (∃ p, analyze_user containsSubstr trioActivity "trio" = some p ∧
      ValidProfile ((trioActivity.lookup "trio").getD []) p) :=
  ⟨by decide, (C4_amended containsSubstr trioActivity "trio").2 (by decide)⟩

theorem keywordCount_congr (kws : List String) (t t' : String)
    (h : ∀ kw ∈ kws, containsSubstr kw t = containsSubstr kw t') :
    keywordCount kws t = keywordCount kws t' := by
  unfold keywordCount
  exact congrArg List.length (List.filter_congr h)

theorem familyMatches_congr (matchFn : String → String → Bool)
    (pats : List String) (l1 l2 : List Msg)
    (h : ∀ p ∈ pats, matchFn p (combinedText l1) = matchFn p (combinedText l2)) :
    familyMatches matchFn pats l1 = familyMatches matchFn pats l2 := by
  unfold familyMatches count_pattern_matches
  rw [List.filter_congr h]

theorem fastTwitchSignals_perm (l1 l2 : List Msg) (hp : l1.Perm l2)
    (hkw : ∀ kw ∈ URGENT_KEYWORDS ++ OPTIONS_KEYWORDS ++ DERIVATIVES_KEYWORDS ++
        DAY_TRADING_KEYWORDS ++ TECHNICAL_KEYWORDS,
      containsSubstr kw (totalText l1) = containsSubstr kw (totalText l2)) :
    fastTwitchSignals l1 = fastTwitchSignals l2 := by
  have hU : keywordCount URGENT_KEYWORDS (totalText l1) =
      keywordCount URGENT_KEYWORDS (totalText l2) :=
    keywordCount_congr _ _ _ (fun kw h => hkw kw (by simp [List.mem_append, h]))
  have hO : keywordCount OPTIONS_KEYWORDS (totalText l1) =
      keywordCount OPTIONS_KEYWORDS (totalText l2) :=
    keywordCount_congr _ _ _ (fun kw h => hkw kw (by simp [List.mem_append, h]))
  have hD : keywordCount DERIVATIVES_KEYWORDS (totalText l1) =
      keywordCount DERIVATIVES_KEYWORDS (totalText l2) :=
    keywordCount_congr _ _ _ (fun kw h => hkw kw (by simp [List.mem_append, h]))
  have hDT : keywordCount DAY_TRADING_KEYWORDS (totalText l1) =
      keywordCount DAY_TRADING_KEYWORDS (totalText l2) :=
    keywordCount_congr _ _ _ (fun kw h => hkw kw (by simp [List.mem_append, h]))
  have hT : keywordCount TECHNICAL_KEYWORDS (totalText l1) =
      keywordCount TECHNICAL_KEYWORDS (totalText l2) :=
    keywordCount_congr _ _ _ (fun kw h => hkw kw (by simp [List.mem_append, h]))
  have hsym : ((l1.flatMap Msg.symbols).filter
        (fun s => LEVERAGED_INSTRUMENTS.contains s)).length =
      ((l2.flatMap Msg.symbols).filter
        (fun s => LEVERAGED_INSTRUMENTS.contains s)).length :=
    ((List.Perm.flatMap_right Msg.symbols hp).filter _).length_eq
  have hcom : (l1.filter Msg.is_comment).length = (l2.filter Msg.is_comment).length :=
    (hp.filter _).length_eq
  unfold fastTwitchSignals
  dsimp only
  rw [hp.length_eq, hU, hO, hD, hDT, hT, hsym, hcom]

theorem analyze_timeframe_perm (matchFn : String → String → Bool)
    (l1 l2 : List Msg) (hp : l1.Perm l2)
    (hre : ∀ pat ∈ ULTRA_SHORT_KEYWORDS ++ SHORT_TERM_KEYWORDS ++
        MEDIUM_TERM_KEYWORDS ++ LONG_TERM_KEYWORDS,
      matchFn pat (combinedText l1) = matchFn pat (combinedText l2)) :
    analyze_timeframe matchFn l1 = analyze_timeframe matchFn l2 := by
  have h1 := familyMatches_congr matchFn ULTRA_SHORT_KEYWORDS l1 l2
    (fun p h => hre p (by simp [List.mem_append, h]))
  have h2 := familyMatches_congr matchFn SHORT_TERM_KEYWORDS l1 l2
    (fun p h => hre p (by simp [List.mem_append, h]))
  have h3 := familyMatches_congr matchFn MEDIUM_TERM_KEYWORDS l1 l2
    (fun p h => hre p (by simp [List.mem_append, h]))
  have h4 := familyMatches_congr matchFn LONG_TERM_KEYWORDS l1 l2
    (fun p h => hre p (by simp [List.mem_append, h]))
  have hs : timeframeScores matchFn l1 = timeframeScores matchFn l2 := by
    unfold timeframeScores
    rw [h1, h2, h3, h4]
  unfold analyze_timeframe
  dsimp only
  rw [h1, h2, h3, h4, hs, hp.length_eq]

theorem analyze_strategy_perm (matchFn : String → String → Bool)
    (l1 l2 : List Msg) (hp : l1.Perm l2)
    (hre : ∀ pat ∈ SCALPER_KEYWORDS ++ DAY_TRADER_KEYWORDS ++
        SWING_TRADER_KEYWORDS ++ MOMENTUM_KEYWORDS ++ VALUE_KEYWORDS ++
        GROWTH_KEYWORDS ++ INCOME_KEYWORDS ++ CONTRARIAN_KEYWORDS,
      matchFn pat (combinedText l1) = matchFn pat (combinedText l2)) :
    analyze_strategy matchFn l1 = analyze_strategy matchFn l2 := by
  have h1 := familyMatches_congr matchFn SCALPER_KEYWORDS l1 l2
    (fun p h => hre p (by simp [List.mem_append, h]))
  have h2 := familyMatches_congr matchFn DAY_TRADER_KEYWORDS l1 l2
    (fun p h => hre p (by simp [List.mem_append, h]))
  have h3 := familyMatches_congr matchFn SWING_TRADER_KEYWORDS l1 l2
    (fun p h => hre p (by simp [List.mem_append, h]))
  have h4 := familyMatches_congr matchFn MOMENTUM_KEYWORDS l1 l2
    (fun p h => hre p (by simp [List.mem_append, h]))
  have h5 := familyMatches_congr matchFn VALUE_KEYWORDS l1 l2
    (fun p h => hre p (by simp [List.mem_append, h]))
  have h6 := familyMatches_congr matchFn GROWTH_KEYWORDS l1 l2
    (fun p h => hre p (by simp [List.mem_append, h]))
  have h7 := familyMatches_congr matchFn INCOME_KEYWORDS l1 l2
    (fun p h => hre p (by simp [List.mem_append, h]))
  have h8 := familyMatches_congr matchFn CONTRARIAN_KEYWORDS l1 l2
    (fun p h => hre p (by simp [List.mem_append, h]))
  have hs : strategyScores matchFn l1 = strategyScores matchFn l2 := by
    unfold strategyScores
    rw [h1, h2, h3, h4, h5, h6, h7, h8]
  unfold analyze_strategy
  dsimp only
  rw [h1, h2, h3, h4, h5, h6, h7, h8, hs, hp.length_eq]

theorem analyze_conviction_perm (matchFn : String → String → Bool)
    (l1 l2 : List Msg) (hp : l1.Perm l2)
    (hre : ∀ pat ∈ HIGH_CONVICTION ++ MEDIUM_CONVICTION ++ LOW_CONVICTION,
      matchFn pat (combinedText l1) = matchFn pat (combinedText l2)) :
    analyze_conviction matchFn l1 = analyze_conviction matchFn l2 := by
  have h1 := familyMatches_congr matchFn HIGH_CONVICTION l1 l2
    (fun p h => hre p (by simp [List.mem_append, h]))
  have h2 := familyMatches_congr matchFn MEDIUM_CONVICTION l1 l2
    (fun p h => hre p (by simp [List.mem_append, h]))
  have h3 := familyMatches_congr matchFn LOW_CONVICTION l1 l2
    (fun p h => hre p (by simp [List.mem_append, h]))
  unfold analyze_conviction
  dsimp only
  rw [h1, h2, h3, hp.length_eq]

theorem analyze_risk_profile_perm (matchFn : String → String → Bool)
    (l1 l2 : List Msg)
    (hre : ∀ pat ∈ AGGRESSIVE_SIGNALS ++ CONSERVATIVE_SIGNALS,
      matchFn pat (combinedText l1) = matchFn pat (combinedText l2)) :
    analyze_risk_profile matchFn l1 = analyze_risk_profile matchFn l2 := by
  have h1 := familyMatches_congr matchFn AGGRESSIVE_SIGNALS l1 l2
    (fun p h => hre p (by simp [List.mem_append, h]))
  have h2 := familyMatches_congr matchFn CONSERVATIVE_SIGNALS l1 l2
    (fun p h => hre p (by simp [List.mem_append, h]))
  unfold analyze_risk_profile
  dsimp only
  rw [h1, h2]

/-- C6 counterexample: because pattern matching runs over the space-joined
concatenation of post bodies, matches may span post boundaries, so permuting
a user's posts can change the match counts: the posts "right" and "now"
produce the urgency phrase "right now" in one order only, changing the
urgent-language signal from 4 to 2. -/
theorem C6_counterexample :
    [msgRight, msgNow].Perm [msgNow, msgRight] ∧
    keywordCount URGENT_KEYWORDS (totalText [msgRight, msgNow]) = 2 ∧
    keywordCount URGENT_KEYWORDS (totalText [msgNow, msgRight]) = 1 ∧
    (fastTwitchSignals [msgRight, msgNow]).urgent_language = 4 ∧
    (fastTwitchSignals [msgNow, msgRight]).urgent_language = 2 ∧
    fastTwitchSignals [msgRight, msgNow] ≠ fastTwitchSignals [msgNow, msgRight] := by
  have h1 : keywordCount URGENT_KEYWORDS (totalText [msgRight, msgNow]) = 2 := by
    decide
  have h2 : keywordCount URGENT_KEYWORDS (totalText [msgNow, msgRight]) = 1 := by
    decide
  have hu1 : (fastTwitchSignals [msgRight, msgNow]).urgent_language = 4 := by
    unfold fastTwitchSignals
    dsimp only
    rw [h1]
    rw [show (((2 : Nat) : ℚ)) * 2 = 4 by norm_num]
    exact min_eq_left (by norm_num)
  have hu2 : (fastTwitchSignals [msgNow, msgRight]).urgent_language = 2 := by
    unfold fastTwitchSignals
    dsimp only
    rw [h2]
    rw [show (((1 : Nat) : ℚ)) * 2 = 2 by norm_num]
    exact min_eq_left (by norm_num)
  refine ⟨List.Perm.swap _ _ _, h1, h2, hu1, hu2, ?_⟩
  intro heq
  have : (4 : ℚ) = 2 := by rw [← hu1, heq, hu2]
  norm_num at this

/-- C6 amended: permuting a user's post list leaves the signal vector, the
fast-twitch score and all four classifier outputs unchanged, provided every
lexicon pattern's match status on the joined concatenation is unchanged by
the permutation (in general a match may span two adjacent post bodies, so
this proviso is necessary: post order can matter, as the counterexample
shows). -/
theorem C6_amended (matchFn : String → String → Bool) (username : String)
    (l1 l2 : List Msg) (hp : l1.Perm l2)
    (hkw : ∀ kw ∈ URGENT_KEYWORDS ++ OPTIONS_KEYWORDS ++ DERIVATIVES_KEYWORDS ++
        DAY_TRADING_KEYWORDS ++ TECHNICAL_KEYWORDS,
      containsSubstr kw (totalText l1) = containsSubstr kw (totalText l2))
    (hre : ∀ pat ∈ ULTRA_SHORT_KEYWORDS ++ SHORT_TERM_KEYWORDS ++
        MEDIUM_TERM_KEYWORDS ++ LONG_TERM_KEYWORDS ++ SCALPER_KEYWORDS ++
        DAY_TRADER_KEYWORDS ++ SWING_TRADER_KEYWORDS ++ MOMENTUM_KEYWORDS ++
        VALUE_KEYWORDS ++ GROWTH_KEYWORDS ++ INCOME_KEYWORDS ++
        CONTRARIAN_KEYWORDS ++ HIGH_CONVICTION ++ MEDIUM_CONVICTION ++
        LOW_CONVICTION ++ AGGRESSIVE_SIGNALS ++ CONSERVATIVE_SIGNALS,
      matchFn pat (combinedText l1) = matchFn pat (combinedText l2)) :
    fastTwitchSignals l1 = fastTwitchSignals l2 ∧
    (fastTwitchFull username l1).score = (fastTwitchFull username l2).score ∧
    analyze_timeframe matchFn l1 = analyze_timeframe matchFn l2 ∧
    analyze_strategy matchFn l1 = analyze_strategy matchFn l2 ∧
    analyze_conviction matchFn l1 = analyze_conviction matchFn l2 ∧
    analyze_risk_profile matchFn l1 = analyze_risk_profile matchFn l2 := by
  have hsig := fastTwitchSignals_perm l1 l2 hp hkw
  have hscore : (fastTwitchFull username l1).score = (fastTwitchFull username l2).score := by
    unfold fastTwitchFull normalizedScore
    dsimp only
    rw [hsig]
  refine ⟨hsig, hscore, ?_, ?_, ?_, ?_⟩
  · exact analyze_timeframe_perm matchFn l1 l2 hp
      (fun p h => hre p (by simp only [List.mem_append] at h ⊢; tauto))
  · exact analyze_strategy_perm matchFn l1 l2 hp
      (fun p h => hre p (by simp only [List.mem_append] at h ⊢; tauto))
  · exact analyze_conviction_perm matchFn l1 l2 hp
      (fun p h => hre p (by simp only [List.mem_append] at h ⊢; tauto))
  · exact analyze_risk_profile_perm matchFn l1 l2
      (fun p h => hre p (by simp only [List.mem_append] at h ⊢; tauto))

set_option maxRecDepth 100000 in
/-- Witness for C6 amended: swapping the posts "now" and "fast" satisfies the
match-status proviso, and all outputs agree. -/
theorem C6_amended_witness :
    ([msgNow, msgFast].Perm [msgFast, msgNow] ∧
      (∀ kw ∈ URGENT_KEYWORDS ++ OPTIONS_KEYWORDS ++ DERIVATIVES_KEYWORDS ++
          DAY_TRADING_KEYWORDS ++ TECHNICAL_KEYWORDS,
        containsSubstr kw (totalText [msgNow, msgFast]) =
          containsSubstr kw (totalText [msgFast, msgNow])) ∧
      (∀ pat ∈ ULTRA_SHORT_KEYWORDS ++ SHORT_TERM_KEYWORDS ++
          MEDIUM_TERM_KEYWORDS ++ LONG_TERM_KEYWORDS ++ SCALPER_KEYWORDS ++
          DAY_TRADER_KEYWORDS ++ SWING_TRADER_KEYWORDS ++ MOMENTUM_KEYWORDS ++
          VALUE_KEYWORDS ++ GROWTH_KEYWORDS ++ INCOME_KEYWORDS ++
          CONTRARIAN_KEYWORDS ++ HIGH_CONVICTION ++ MEDIUM_CONVICTION ++
          LOW_CONVICTION ++ AGGRESSIVE_SIGNALS ++ CONSERVATIVE_SIGNALS,
        containsSubstr pat (combinedText [msgNow, msgFast]) =
          containsSubstr pat (combinedText [msgFast, msgNow]))) ∧
    (fastTwitchSignals [msgNow, msgFast] = fastTwitchSignals [msgFast, msgNow] ∧
      (fastTwitchFull "u" [msgNow, msgFast]).score =
        (fastTwitchFull "u" [msgFast, msgNow]).score ∧
      analyze_timeframe containsSubstr [msgNow, msgFast] =
        analyze_timeframe containsSubstr [msgFast, msgNow] ∧
      analyze_strategy containsSubstr [msgNow, msgFast] =
        analyze_strategy containsSubstr [msgFast, msgNow] ∧
      analyze_conviction containsSubstr [msgNow, msgFast] =
        analyze_conviction containsSubstr [msgFast, msgNow] ∧
      analyze_risk_profile containsSubstr [msgNow, msgFast] =
        analyze_risk_profile containsSubstr [msgFast, msgNow]) :=
  ⟨⟨List.Perm.swap _ _ _, by decide, by decide⟩,
   C6_amended containsSubstr "u" [msgNow, msgFast] [msgFast, msgNow]
     (List.Perm.swap _ _ _) (by decide) (by decide)⟩

theorem maxVal_cons (x : String × Nat) (l : List (String × Nat)) :
    maxVal (x :: l) = max x.2 (maxVal l) := rfl

theorem le_maxVal_of_mem {y : String × Nat} {l : List (String × Nat)}
    (h : y ∈ l) : y.2 ≤ maxVal l := by
  induction l with
  | nil => cases h
  | cons a as ih =>
    rw [maxVal_cons]
    rcases List.mem_cons.mp h with h1 | h2
    · rw [h1]
      exact Nat.le_max_left _ _
    · exact le_trans (ih h2) (Nat.le_max_right _ _)

theorem firstMax_singleton (x : String × Nat) : firstMax [x] = some x := by
  unfold firstMax
  rw [List.find?_cons_of_pos]
  simp only [decide_eq_true_eq, maxVal_cons]
  simp [maxVal]

theorem firstMax_cons_foldl (xs : List (String × Nat)) :
    ∀ x, firstMax (x :: xs) =
      some (xs.foldl (fun a b => if a.2 < b.2 then b else a) x) := by
  induction xs with
  | nil =>
    intro x
    exact firstMax_singleton x
  | cons y ys ih =>
    intro x
    rw [List.foldl_cons]
    by_cases hxy : x.2 < y.2
    · rw [if_pos hxy, ← ih y]
      have hyM : y.2 ≤ maxVal (y :: ys) := le_maxVal_of_mem (List.mem_cons_self _ _)
      have hM : maxVal (x :: y :: ys) = maxVal (y :: ys) := by
        rw [maxVal_cons]
        omega
      unfold firstMax
      rw [hM, List.find?_cons_of_neg]
      simp only [decide_eq_true_eq]
      omega
    · rw [if_neg hxy, ← ih x]
      push_neg at hxy
      have hM : maxVal (x :: y :: ys) = maxVal (x :: ys) := by
        simp only [maxVal_cons]
        omega
      unfold firstMax
      rw [hM]
      by_cases hpx : maxVal (x :: ys) ≤ x.2
      · have hpx' : (fun z : String × Nat => decide (maxVal (x :: ys) ≤ z.2)) x = true := by
          simpa using hpx
        rw [@List.find?_cons_of_pos (String × Nat)
              (fun z => decide (maxVal (x :: ys) ≤ z.2)) x (y :: ys) hpx',
            @List.find?_cons_of_pos (String × Nat)
              (fun z => decide (maxVal (x :: ys) ≤ z.2)) x ys hpx']
      · have hnx : ¬(fun z : String × Nat => decide (maxVal (x :: ys) ≤ z.2)) x = true := by
          simpa using hpx
        have hny : ¬(fun z : String × Nat => decide (maxVal (x :: ys) ≤ z.2)) y = true := by
          simp only [decide_eq_true_eq]
          omega
        rw [@List.find?_cons_of_neg (String × Nat)
              (fun z => decide (maxVal (x :: ys) ≤ z.2)) x (y :: ys) hnx,
            @List.find?_cons_of_neg (String × Nat)
              (fun z => decide (maxVal (x :: ys) ≤ z.2)) y ys hny,
            @List.find?_cons_of_neg (String × Nat)
              (fun z => decide (maxVal (x :: ys) ≤ z.2)) x ys hnx]

theorem pyMaxKey_eq_firstMaxLabel (x : String × Nat) (xs : List (String × Nat)) :
    pyMaxKey (x :: xs) = firstMaxLabel (x :: xs) := by
  unfold pyMaxKey firstMaxLabel
  rw [firstMax_cons_foldl]
  rfl

theorem maxVal_insertDesc (x : String × Nat) (l : List (String × Nat)) :
    maxVal (insertDesc x l) = max x.2 (maxVal l) := by
  induction l with
  | nil => rfl
  | cons y ys ih =>
    unfold insertDesc
    split_ifs with h
    · rfl
    · rw [maxVal_cons, ih]
      simp only [maxVal_cons]
      omega

theorem insertDesc_length (x : String × Nat) (l : List (String × Nat)) :
    (insertDesc x l).length = l.length + 1 := by
  induction l with
  | nil => rfl
  | cons y ys ih =>
    unfold insertDesc
    split_ifs with h
    · rfl
    · simpa using ih

theorem sortDesc_length (l : List (String × Nat)) :
    (sortDesc l).length = l.length := by
  induction l with
  | nil => rfl
  | cons x xs ih =>
    show (insertDesc x (sortDesc xs)).length = xs.length + 1
    rw [insertDesc_length, ih]

theorem sortDesc_head?_eq_firstMax (l : List (String × Nat)) :
    (sortDesc l).head? = firstMax l := by
  induction l with
  | nil => rfl
  | cons x xs ih =>
    show (insertDesc x (sortDesc xs)).head? = firstMax (x :: xs)
    cases hs : sortDesc xs with
    | nil =>
      have hxs : xs = [] := by
        have hlen := sortDesc_length xs
        rw [hs] at hlen
        exact List.length_eq_zero.mp hlen.symm
      subst hxs
      rw [firstMax_singleton]
      rfl
    | cons y ys =>
      rw [hs] at ih
      have hy : firstMax xs = some y := by
        rw [← ih]
        rfl
      have hy' : List.find? (fun z => decide (maxVal xs ≤ z.2)) xs = some y := hy
      have hymem : y ∈ xs := List.mem_of_find?_eq_some hy'
      have hyle : maxVal xs ≤ y.2 := by
        have := List.find?_some hy'
        simpa using this
      have hyge : y.2 ≤ maxVal xs := le_maxVal_of_mem hymem
      have hyeq : y.2 = maxVal xs := le_antisymm hyge hyle
      unfold insertDesc
      split_ifs with h
      · simp only [List.head?_cons]
        unfold firstMax
        rw [List.find?_cons_of_pos]
        simp only [decide_eq_true_eq, maxVal_cons]
        omega
      · push_neg at h
        simp only [List.head?_cons]
        unfold firstMax
        rw [List.find?_cons_of_neg]
        · have hM : maxVal (x :: xs) = maxVal xs := by
            rw [maxVal_cons]
            omega
          rw [hM, hy']
        · simp only [decide_eq_true_eq, maxVal_cons]
          omega

/-- C3 counterexample: when every timeframe label has zero matches they all
share the highest match count, yet the classifier's primary is "unknown",
not the first-declared label, refuting the claim as stated for zero-match
ties. -/
theorem C3_counterexample :
    timeframeScores containsSubstr [blankMsg, blankMsg, blankMsg] =
      [("ultra_short_term", 0), ("short_term", 0),
       ("medium_term", 0), ("long_term", 0)] ∧
    (analyze_timeframe containsSubstr [blankMsg, blankMsg, blankMsg]).primary =
      "unknown" ∧
    (analyze_timeframe containsSubstr [blankMsg, blankMsg, blankMsg]).primary ≠
      "ultra_short_term" := by
  exact ⟨by decide, by decide, by decide⟩

/-- C3 amended: whenever the highest match count is nonzero — in particular
at every nonzero tie — both the timeframe and the strategy classifier select
as primary the first label in declaration order attaining that highest count
(Python's `max(scores, key=scores.get)` and its stable descending sort both
resolve ties in favour of the first-declared label); when every label has
zero matches the primary is "unknown" instead. -/
theorem C3_amended (matchFn : String → String → Bool) (posts : List Msg) :
    (maxVal (timeframeScores matchFn posts) ≠ 0 →
      (analyze_timeframe matchFn posts).primary =
        firstMaxLabel (timeframeScores matchFn posts)) ∧
    (maxVal (strategyScores matchFn posts) ≠ 0 →
      (analyze_strategy matchFn posts).primary =
        firstMaxLabel (strategyScores matchFn posts)) := by
  constructor
  · intro h
    unfold analyze_timeframe
    dsimp only
    rw [if_neg h]
    exact pyMaxKey_eq_firstMaxLabel _ _
  · intro h
    unfold analyze_strategy
    dsimp only
    rw [if_neg h]
    dsimp only
    have hfm := sortDesc_head?_eq_firstMax (strategyScores matchFn posts)
    cases hs : sortDesc (strategyScores matchFn posts) with
    | nil =>
      exfalso
      have hlen := sortDesc_length (strategyScores matchFn posts)
      rw [hs] at hlen
      simp [strategyScores] at hlen
    | cons z zs =>
      rw [hs] at hfm
      unfold firstMaxLabel
      rw [← hfm]
      rfl

/-- Witness for C3 amended: a post whose body ties ultra-short with short
term (1-1) and swing with momentum (1-1); the first-declared labels win. -/
theorem C3_amended_witness :
    (maxVal (timeframeScores containsSubstr [tieMsg]) ≠ 0 ∧
      maxVal (strategyScores containsSubstr [tieMsg]) ≠ 0 ∧
      (familyMatches containsSubstr ULTRA_SHORT_KEYWORDS [tieMsg]).1 =
        (familyMatches containsSubstr SHORT_TERM_KEYWORDS [tieMsg]).1 ∧
      (familyMatches containsSubstr SWING_TRADER_KEYWORDS [tieMsg]).1 =
        (familyMatches containsSubstr MOMENTUM_KEYWORDS [tieMsg]).1) ∧
    (analyze_timeframe containsSubstr [tieMsg]).primary =
      firstMaxLabel (timeframeScores containsSubstr [tieMsg]) ∧
    (analyze_strategy containsSubstr [tieMsg]).primary =
      firstMaxLabel (strategyScores containsSubstr [tieMsg]) ∧
    (analyze_timeframe containsSubstr [tieMsg]).primary = "ultra_short_term" ∧
    (analyze_strategy containsSubstr [tieMsg]).primary = "swing_trader" :=
  ⟨⟨by decide, by decide, by decide, by decide⟩,
   (C3_amended containsSubstr [tieMsg]).1 (by decide),
   (C3_amended containsSubstr [tieMsg]).2 (by decide),
   by decide, by decide⟩

end StockTwits
